import Mathlib

/-
  Verification development for the ESP32 garage-door controller.

  The embedding translates the controller's global state and its pure control
  logic from the two source revisions (garagedoor.ino and the later revision
  in src/unnamed/part_000).  Hardware and transport calls (digitalWrite, the
  Telegram bot, Serial) are modelled by their observable effects only: sensor
  readings, times and message texts are inputs, and actuation is reported as a
  boolean effect.  Time advances only through the explicit delay calls of the
  source (500 ms per confirmation-poll iteration), which is the idealisation
  the specification itself uses.
-/

set_option autoImplicit false

namespace GarageDoor

/-- Door states, from the source enum DoorState. -/
inductive DoorState where
  | DOOR_CLOSED
  | DOOR_OPEN
  | DOOR_UNKNOWN
deriving DecidableEq

open DoorState

/-- Digital level HIGH of the limit-switch pin. -/
def HIGH : Bool := true

/-- Digital level LOW of the limit-switch pin. -/
def LOW : Bool := false

/-- Warning duration before actuation, in ms. -/
def PRE_OPERATION_WARNING_TIME : Nat := 2000

/-- Relay activation duration, in ms. -/
def DOOR_ACTIVATION_DURATION : Nat := 2000

/-- Confirmation-poll window, in ms. -/
def OPERATION_TIMEOUT : Nat := 20000

/-- Debounce interval, in ms. -/
def debounceDelay : Nat := 50

/-- Quiet hours lower bound (22:00). -/
def QUIET_HOURS_START : Nat := 22

/-- Quiet hours upper bound (06:00). -/
def QUIET_HOURS_END : Nat := 6

/-- Event source string used at boot. -/
def strBoot : String := "boot"

/-- Event source string used for command-confirmed transitions
    (the spec calls this source Command). -/
def strTelegram : String := "telegram"

/-- Event source string used for externally caused transitions
    (the spec calls this source External). -/
def strExternal : String := "external"

/-- Command text of the start command. -/
def strStart : String := "/start"

/-- Command text of the help command. -/
def strHelp : String := "/help"

/-- Command text of the log query. -/
def strLog : String := "/log"

/-- Command text of the status query. -/
def strStatus : String := "/status"

/-- Command text of the setalert command. -/
def strSetAlert : String := "/setalert"

/-- Command text of the open command. -/
def strOpen : String := "/open"

/-- Command text of the close command. -/
def strClose : String := "/close"

/-- The retained door event, from struct DoorEvent. -/
structure DoorEvent where
  state : DoorState
  timestamp : Nat
  source : String
deriving DecidableEq

/-- The controller's mutable globals, gathered into one state record:
    currentDoorState, doorOperationInProgress, lastEvent, the debounce
    filter fields (lastSwitchState, lastDebounceTime) and the alert
    fields (doorOpenStartTime, doorOpenAlertSent, DOOR_OPEN_ALERT_THRESHOLD). -/
structure ControllerState where
  currentDoorState : DoorState
  doorOperationInProgress : Bool
  lastEvent : DoorEvent
  lastSwitchState : Bool
  lastDebounceTime : Nat
  doorOpenStartTime : Nat
  doorOpenAlertSent : Bool
  doorOpenAlertThreshold : Nat
deriving DecidableEq

/-- Embedding of getDoorState from src/unnamed/part_000 (lines 106-125).
    A reading that differs from lastSwitchState resets lastDebounceTime to
    now; once the reading has been unchanged for longer than debounceDelay,
    reading not equal to HIGH means DOOR_OPEN and HIGH means DOOR_CLOSED;
    otherwise the global currentDoorState is returned unchanged. -/
def getDoorState (s : ControllerState) (reading : Bool) (now : Nat) :
    DoorState × ControllerState :=
  let lastDebounceTime := if reading ≠ s.lastSwitchState then now else s.lastDebounceTime
  let currentState :=
    if now - lastDebounceTime > debounceDelay then
      if reading ≠ HIGH then DOOR_OPEN else DOOR_CLOSED
    else s.currentDoorState
  (currentState, { s with lastSwitchState := reading, lastDebounceTime := lastDebounceTime })

namespace Rev1

/-- Embedding of getDoorState from src/garagedoor.ino (lines 89-108).
    Identical to the other revision except for polarity: reading equal to
    HIGH means DOOR_OPEN and any other reading means DOOR_CLOSED. -/
def getDoorState (s : ControllerState) (reading : Bool) (now : Nat) :
    DoorState × ControllerState :=
  let lastDebounceTime := if reading ≠ s.lastSwitchState then now else s.lastDebounceTime
  let currentState :=
    if now - lastDebounceTime > debounceDelay then
      if reading = HIGH then DOOR_OPEN else DOOR_CLOSED
    else s.currentDoorState
  (currentState, { s with lastSwitchState := reading, lastDebounceTime := lastDebounceTime })

end Rev1

/-- Embedding of recordDoorEvent: overwrite the retained event with the
    given state, the current wall-clock time and the source string. -/
def recordDoorEvent (s : ControllerState) (st : DoorState) (wallNow : Nat)
    (source : String) : ControllerState :=
  { s with lastEvent := { state := st, timestamp := wallNow, source := source } }

/-- Structured result of a command, abstracting the reply messages sent by
    the source. -/
inductive CmdResult where
  | Success
  | AlreadyInTargetState
  | OperationTimeout
  | InvalidAlertThreshold
  | MissingArgument
deriving DecidableEq

/-- Observable outcome of an open or close command: the structured result,
    the millis value when the command finished, and whether the actuator
    (triggerGarageDoor) was invoked. -/
structure OpOutcome where
  result : CmdResult
  endTime : Nat
  actuated : Bool
deriving DecidableEq

/-- Embedding of the confirmation-poll loop shared by the open and close
    handlers: while less than OPERATION_TIMEOUT has elapsed since startTime,
    delay 500 ms, sample the debouncer and stop with success when the sample
    equals the target.  The readings list supplies the raw reading seen by
    each iteration; time advances only through the 500 ms delay.  Returns the
    success flag, the threaded controller state and the millis value at which
    the loop stopped. -/
def confirmLoop (target : DoorState) (s : ControllerState)
    (startTime now : Nat) : List Bool → Bool × ControllerState × Nat
  | [] => (false, s, now)
  | r :: rs =>
    if now - startTime < OPERATION_TIMEOUT then
      let p := getDoorState s r (now + 500)
      if p.1 = target then (true, p.2, now + 500)
      else confirmLoop target p.2 startTime (now + 500) rs
    else (false, s, now)

/-- The sequence of debouncer samples the confirmation loop would observe on
    the given readings, without stopping at a hit: one getDoorState result per
    iteration, sampled 500 ms apart. -/
def sampleTrace (s : ControllerState) (now : Nat) : List Bool → List DoorState
  | [] => []
  | r :: rs =>
    let p := getDoorState s r (now + 500)
    p.1 :: sampleTrace p.2 (now + 500) rs

/-- Embedding of the /open handler (src/unnamed/part_000 lines 291-323):
    freshly sample the debouncer into currentDoorState; if already DOOR_OPEN,
    short-circuit; otherwise set doorOperationInProgress, run the actuator
    (observable as the actuated flag), run the confirmation loop from
    startTime, clear doorOperationInProgress, and on success set
    currentDoorState to DOOR_OPEN and record a telegram-sourced event at
    wall-clock time wallNow. -/
def processOpen (s : ControllerState) (reading0 : Bool)
    (now0 startTime wallNow : Nat) (readings : List Bool) :
    OpOutcome × ControllerState :=
  let p := getDoorState s reading0 now0
  if p.1 = DOOR_OPEN then
    ({ result := CmdResult.AlreadyInTargetState, endTime := now0, actuated := false },
     { p.2 with currentDoorState := p.1 })
  else
    let s2 := { p.2 with currentDoorState := p.1, doorOperationInProgress := true }
    let q := confirmLoop DOOR_OPEN s2 startTime startTime readings
    let s3 := { q.2.1 with doorOperationInProgress := false }
    if q.1 then
      ({ result := CmdResult.Success, endTime := q.2.2, actuated := true },
       recordDoorEvent { s3 with currentDoorState := DOOR_OPEN } DOOR_OPEN wallNow strTelegram)
    else
      ({ result := CmdResult.OperationTimeout, endTime := q.2.2, actuated := true }, s3)

/-- Embedding of the /close handler (src/unnamed/part_000 lines 325-357),
    the mirror image of processOpen with target DOOR_CLOSED. -/
def processClose (s : ControllerState) (reading0 : Bool)
    (now0 startTime wallNow : Nat) (readings : List Bool) :
    OpOutcome × ControllerState :=
  let p := getDoorState s reading0 now0
  if p.1 = DOOR_CLOSED then
    ({ result := CmdResult.AlreadyInTargetState, endTime := now0, actuated := false },
     { p.2 with currentDoorState := p.1 })
  else
    let s2 := { p.2 with currentDoorState := p.1, doorOperationInProgress := true }
    let q := confirmLoop DOOR_CLOSED s2 startTime startTime readings
    let s3 := { q.2.1 with doorOperationInProgress := false }
    if q.1 then
      ({ result := CmdResult.Success, endTime := q.2.2, actuated := true },
       recordDoorEvent { s3 with currentDoorState := DOOR_CLOSED } DOOR_CLOSED wallNow strTelegram)
    else
      ({ result := CmdResult.OperationTimeout, endTime := q.2.2, actuated := true }, s3)

/-- Projection rendered by the /status reply: the freshly sampled state and
    the retained event. -/
structure StatusView where
  state : DoorState
  lastEvent : DoorEvent
deriving DecidableEq

/-- Embedding of the /status handler (src/unnamed/part_000 lines 238-265):
    one fresh debouncer sample is written to currentDoorState, then the reply
    is rendered from currentDoorState and lastEvent. -/
def processStatus (s : ControllerState) (reading : Bool) (now : Nat) :
    StatusView × ControllerState :=
  let p := getDoorState s reading now
  let s1 := { p.2 with currentDoorState := p.1 }
  ({ state := s1.currentDoorState, lastEvent := s1.lastEvent }, s1)

/-- Projection rendered by the /log reply: state, retained event and the
    uptime breakdown computed from millis. -/
structure LogView where
  state : DoorState
  lastEvent : DoorEvent
  days : Nat
  hours : Nat
  minutes : Nat
  seconds : Nat
deriving DecidableEq

/-- Embedding of the /log handler (src/unnamed/part_000 lines 198-236):
    a pure projection of currentDoorState, lastEvent and uptime; the
    controller state is not modified. -/
def processLog (s : ControllerState) (millisNow : Nat) :
    LogView × ControllerState :=
  let uptime := millisNow / 1000
  ({ state := s.currentDoorState
    , lastEvent := s.lastEvent
    , days := uptime / 86400
    , hours := (uptime % 86400) / 3600
    , minutes := (uptime % 3600) / 60
    , seconds := uptime % 60 }, s)

/-- Embedding of the /setalert core (src/unnamed/part_000 lines 272-285),
    given the parsed minutes value: positive minutes update the threshold to
    minutes * 60 * 1000, computed in 32-bit arithmetic and stored into the
    32-bit unsigned long DOOR_OPEN_ALERT_THRESHOLD, hence taken modulo 2^32;
    if the door is currently open the open-since time is reset to now and
    the alert flag cleared; non-positive minutes leave the state unchanged
    and fail. -/
def setAlertMinutes (s : ControllerState) (minutes : Int) (now : Nat) :
    CmdResult × ControllerState :=
  if minutes > 0 then
    let s1 := { s with doorOpenAlertThreshold := minutes.toNat * 60 * 1000 % 2 ^ 32 }
    let s2 :=
      if s1.currentDoorState = DOOR_OPEN then
        { s1 with doorOpenStartTime := now, doorOpenAlertSent := false }
      else s1
    (CmdResult.Success, s2)
  else (CmdResult.InvalidAlertThreshold, s)

/-- Accumulate leading decimal digits, stopping at the first non-digit,
    mirroring the digit loop of atol behind String::toInt. -/
def digitsToNat : List Char → Nat → Nat
  | [], acc => acc
  | c :: cs, acc =>
    if c.isDigit then digitsToNat cs (acc * 10 + (c.toNat - 48)) else acc

/-- Clamp a parsed magnitude to the 32-bit long range, as strtol does:
    positive values saturate at LONG_MAX, negative ones at LONG_MIN. -/
def clampLong (n : Nat) (neg : Bool) : Int :=
  if neg then
    if n > 2147483648 then -2147483648 else - (n : Int)
  else
    if n > 2147483647 then 2147483647 else (n : Int)

/-- Model of Arduino String::toInt (atol, i.e. strtol with 32-bit long):
    skip leading whitespace, accept an optional sign, read leading digits,
    and clamp the result to the long range; anything else yields 0. -/
def toIntModel (t : String) : Int :=
  let cs := t.toList.dropWhile (fun c => c.isWhitespace)
  match cs with
  | '-' :: rest => clampLong (digitsToNat rest 0) true
  | '+' :: rest => clampLong (digitsToNat rest 0) false
  | _ => clampLong (digitsToNat cs 0) false

/-- Embedding of the /setalert argument extraction (src/unnamed/part_000
    lines 267-289): find the first space, require a non-empty remainder,
    parse it with toInt and delegate to setAlertMinutes; otherwise report a
    missing argument and leave the state unchanged. -/
def setAlertCmd (s : ControllerState) (text : String) (now : Nat) :
    CmdResult × ControllerState :=
  let cs := text.toList
  let untilSpace := cs.takeWhile (fun c => c ≠ ' ')
  let afterSpace := (cs.dropWhile (fun c => c ≠ ' ')).drop 1
  if untilSpace.length < cs.length ∧ afterSpace ≠ [] then
    setAlertMinutes s (toIntModel (String.mk afterSpace)) now
  else (CmdResult.MissingArgument, s)

/-- One incoming Telegram message together with the environment the handler
    consumes while processing it: the raw reading and millis value at the
    initial sample, the millis value when the confirmation window starts, the
    wall-clock time, and the per-poll readings. -/
structure TgMessage where
  chat_id : String
  text : String
  reading : Bool
  now : Nat
  startTime : Nat
  wallNow : Nat
  readings : List Bool
deriving DecidableEq

/-- Embedding of the per-message dispatch of handleNewMessages
    (src/unnamed/part_000 lines 157-358): messages from a chat other than the
    authorized one are answered and skipped before any command dispatch; the
    remaining texts are matched in source order.  Returns the new controller
    state and whether the actuator was invoked. -/
def handleMessage (auth : String) (s : ControllerState) (m : TgMessage) :
    ControllerState × Bool :=
  if m.chat_id ≠ auth then (s, false)
  else if m.text = strStart ∨ m.text = strHelp then (s, false)
  else if m.text = strLog then ((processLog s m.now).2, false)
  else if m.text = strStatus then ((processStatus s m.reading m.now).2, false)
  else if String.startsWith m.text strSetAlert then ((setAlertCmd s m.text m.now).2, false)
  else if m.text = strOpen then
    let p := processOpen s m.reading m.now m.startTime m.wallNow m.readings
    (p.2, p.1.actuated)
  else if m.text = strClose then
    let p := processClose s m.reading m.now m.startTime m.wallNow m.readings
    (p.2, p.1.actuated)
  else (s, false)

/-- Embedding of the message loop of handleNewMessages: fold the per-message
    handler over the batch, threading the controller state. -/
def handleNewMessages (auth : String) (s : ControllerState) :
    List TgMessage → ControllerState
  | [] => s
  | m :: ms => handleNewMessages auth (handleMessage auth s m).1 ms

/-- Embedding of the door-state check of loop (src/unnamed/part_000 lines
    431-465): sample the debouncer; on a change, record an external event
    when no operation is in progress, update currentDoorState, and reset the
    alert fields: a transition to DOOR_OPEN sets doorOpenStartTime to now and
    clears doorOpenAlertSent, any other transition only clears
    doorOpenAlertSent. -/
def loopDoorStateCheck (s : ControllerState) (reading : Bool)
    (now wallNow : Nat) : ControllerState :=
  let p := getDoorState s reading now
  let newState := p.1
  if newState ≠ p.2.currentDoorState then
    let s1 :=
      if ¬ p.2.doorOperationInProgress then
        recordDoorEvent p.2 newState wallNow strExternal
      else p.2
    let s2 := { s1 with currentDoorState := newState }
    if s2.currentDoorState = DOOR_OPEN then
      { s2 with doorOpenStartTime := now, doorOpenAlertSent := false }
    else
      { s2 with doorOpenAlertSent := false }
  else p.2

/-- Payload of the extended-open alert: the open duration in minutes and
    whether the quiet-hours note is attached. -/
structure AlertMsg where
  minutes : Nat
  quietHours : Bool
deriving DecidableEq

/-- Embedding of the extended-open alert check of loop (src/unnamed/part_000
    lines 467-494): when the door is open and no alert was sent yet and the
    open duration exceeds the threshold, emit the alert (with the quiet-hours
    note when the local hour is at least QUIET_HOURS_START or below
    QUIET_HOURS_END) and set doorOpenAlertSent. -/
def alertCheck (s : ControllerState) (now hour : Nat) :
    Option AlertMsg × ControllerState :=
  if s.currentDoorState = DOOR_OPEN ∧ s.doorOpenAlertSent = false then
    let doorOpenDuration := now - s.doorOpenStartTime
    if doorOpenDuration > s.doorOpenAlertThreshold then
      (some { minutes := doorOpenDuration / 60000
            , quietHours := QUIET_HOURS_START ≤ hour ∨ hour < QUIET_HOURS_END },
       { s with doorOpenAlertSent := true })
    else (none, s)
  else (none, s)

/-- Iterated alert check across successive loop ticks, given the millis value
    and local hour of each tick; returns the per-tick alert outputs and the
    final state. -/
def alertTicks (s : ControllerState) :
    List (Nat × Nat) → List (Option AlertMsg) × ControllerState
  | [] => ([], s)
  | th :: rest =>
    let p := alertCheck s th.1 th.2
    let q := alertTicks p.2 rest
    (p.1 :: q.1, q.2)

/-- One debouncer sample whose result is written back to currentDoorState,
    as the loop and the query handlers do; used to express the stable state
    carried across a raw-reading sequence. -/
def sampleAssign (s : ControllerState) (reading : Bool) (now : Nat) :
    ControllerState :=
  let p := getDoorState s reading now
  { p.2 with currentDoorState := p.1 }

/-- Feed a sequence of raw readings with their sample times through
    sampleAssign. -/
def runSamples (s : ControllerState) : List (Bool × Nat) → ControllerState
  | [] => s
  | rt :: rest => runSamples (sampleAssign s rt.1 rt.2) rest

/-- Concrete controller state used for command-path witnesses: the recorded
    state says the door is open, but the raw switch level has been HIGH
    (door closed in the part_000 polarity) long enough to debounce, as after
    an external close that the loop has not yet observed. -/
def exS2 : ControllerState :=
  { currentDoorState := DOOR_OPEN
  , doorOperationInProgress := false
  , lastEvent := { state := DOOR_OPEN, timestamp := 10, source := strExternal }
  , lastSwitchState := HIGH
  , lastDebounceTime := 0
  , doorOpenStartTime := 0
  , doorOpenAlertSent := false
  , doorOpenAlertThreshold := 1800000 }

/-- Concrete state with a stable DOOR_OPEN sample pending, used for the
    idempotence witness. -/
def exS3 : ControllerState :=
  { currentDoorState := DOOR_OPEN
  , doorOperationInProgress := false
  , lastEvent := { state := DOOR_OPEN, timestamp := 10, source := strTelegram }
  , lastSwitchState := LOW
  , lastDebounceTime := 0
  , doorOpenStartTime := 0
  , doorOpenAlertSent := false
  , doorOpenAlertThreshold := 1800000 }

/-- Concrete open-episode state for the alert witnesses: door open since
    time 0, no alert sent, threshold 1000 ms. -/
def exS4 : ControllerState :=
  { currentDoorState := DOOR_OPEN
  , doorOperationInProgress := false
  , lastEvent := { state := DOOR_OPEN, timestamp := 10, source := strTelegram }
  , lastSwitchState := LOW
  , lastDebounceTime := 0
  , doorOpenStartTime := 0
  , doorOpenAlertSent := false
  , doorOpenAlertThreshold := 1000 }

/-- Concrete state for the debounce witnesses: stable closed reading. -/
def exS5 : ControllerState :=
  { currentDoorState := DOOR_CLOSED
  , doorOperationInProgress := false
  , lastEvent := { state := DOOR_CLOSED, timestamp := 10, source := strBoot }
  , lastSwitchState := HIGH
  , lastDebounceTime := 0
  , doorOpenStartTime := 0
  , doorOpenAlertSent := false
  , doorOpenAlertThreshold := 1800000 }

/-- Concrete state with the door open, for the setalert witness. -/
def exS6 : ControllerState :=
  { currentDoorState := DOOR_OPEN
  , doorOperationInProgress := false
  , lastEvent := { state := DOOR_OPEN, timestamp := 10, source := strTelegram }
  , lastSwitchState := LOW
  , lastDebounceTime := 0
  , doorOpenStartTime := 5
  , doorOpenAlertSent := true
  , doorOpenAlertThreshold := 1800000 }

/-- Concrete state about to observe a close transition while an open-start
    time of 777 ms is recorded, for the C7 counterexample. -/
def exS7 : ControllerState :=
  { currentDoorState := DOOR_OPEN
  , doorOperationInProgress := true
  , lastEvent := { state := DOOR_OPEN, timestamp := 10, source := strTelegram }
  , lastSwitchState := HIGH
  , lastDebounceTime := 0
  , doorOpenStartTime := 777
  , doorOpenAlertSent := true
  , doorOpenAlertThreshold := 1800000 }

/-- Concrete state about to observe an open transition, for the C7 witness. -/
def exS7b : ControllerState :=
  { currentDoorState := DOOR_CLOSED
  , doorOperationInProgress := false
  , lastEvent := { state := DOOR_CLOSED, timestamp := 10, source := strBoot }
  , lastSwitchState := LOW
  , lastDebounceTime := 0
  , doorOpenStartTime := 0
  , doorOpenAlertSent := false
  , doorOpenAlertThreshold := 1800000 }

/-- Concrete state with a debounced reading pending, for the polarity
    comparison of the two revisions. -/
def exS8 : ControllerState :=
  { currentDoorState := DOOR_UNKNOWN
  , doorOperationInProgress := false
  , lastEvent := { state := DOOR_UNKNOWN, timestamp := 0, source := strBoot }
  , lastSwitchState := HIGH
  , lastDebounceTime := 0
  , doorOpenStartTime := 0
  , doorOpenAlertSent := false
  , doorOpenAlertThreshold := 1800000 }

/-- Concrete boot-time state whose stored currentDoorState disagrees with
    the settled raw reading, for the C9 counterexample. -/
def exS9 : ControllerState :=
  { currentDoorState := DOOR_UNKNOWN
  , doorOperationInProgress := false
  , lastEvent := { state := DOOR_UNKNOWN, timestamp := 0, source := strBoot }
  , lastSwitchState := HIGH
  , lastDebounceTime := 0
  , doorOpenStartTime := 0
  , doorOpenAlertSent := false
  , doorOpenAlertThreshold := 1800000 }

/-- Concrete unauthorized message (chat id differs from the authorized one
    used in the witness) carrying an open command. -/
def exM10 : TgMessage :=
  { chat_id := strExternal
  , text := strOpen
  , reading := HIGH
  , now := 100
  , startTime := 1000
  , wallNow := 5000
  , readings := [LOW, LOW] }

/-- The debouncer only writes the two filter fields: every other controller
    field survives a getDoorState call unchanged. -/
theorem getDoorState_frame (s : ControllerState) (r : Bool) (now : Nat) :
    (getDoorState s r now).2.currentDoorState = s.currentDoorState ∧
    (getDoorState s r now).2.doorOperationInProgress = s.doorOperationInProgress ∧
    (getDoorState s r now).2.lastEvent = s.lastEvent ∧
    (getDoorState s r now).2.doorOpenStartTime = s.doorOpenStartTime ∧
    (getDoorState s r now).2.doorOpenAlertSent = s.doorOpenAlertSent ∧
    (getDoorState s r now).2.doorOpenAlertThreshold = s.doorOpenAlertThreshold := by
  simp [getDoorState]

/-- The confirmation loop threads state only through getDoorState, so all
    non-filter fields are preserved across the whole loop. -/
theorem confirmLoop_frame (target : DoorState) (rs : List Bool) :
    ∀ (s : ControllerState) (startTime now : Nat),
      (confirmLoop target s startTime now rs).2.1.currentDoorState = s.currentDoorState ∧
      (confirmLoop target s startTime now rs).2.1.doorOperationInProgress = s.doorOperationInProgress ∧
      (confirmLoop target s startTime now rs).2.1.lastEvent = s.lastEvent ∧
      (confirmLoop target s startTime now rs).2.1.doorOpenStartTime = s.doorOpenStartTime ∧
      (confirmLoop target s startTime now rs).2.1.doorOpenAlertSent = s.doorOpenAlertSent ∧
      (confirmLoop target s startTime now rs).2.1.doorOpenAlertThreshold = s.doorOpenAlertThreshold := by
  induction rs with
  | nil =>
    intro s startTime now
    simp [confirmLoop]
  | cons r rs ih =>
    intro s startTime now
    simp only [confirmLoop]
    by_cases hlt : now - startTime < OPERATION_TIMEOUT
    · rw [if_pos hlt]
      by_cases hh : (getDoorState s r (now + 500)).1 = target
      · rw [if_pos hh]
        exact getDoorState_frame s r (now + 500)
      · rw [if_neg hh]
        have hg := getDoorState_frame s r (now + 500)
        have hi := ih (getDoorState s r (now + 500)).2 startTime (now + 500)
        exact ⟨hi.1.trans hg.1, hi.2.1.trans hg.2.1, hi.2.2.1.trans hg.2.2.1,
               hi.2.2.2.1.trans hg.2.2.2.1, hi.2.2.2.2.1.trans hg.2.2.2.2.1,
               hi.2.2.2.2.2.trans hg.2.2.2.2.2⟩
    · rw [if_neg hlt]
      exact ⟨rfl, rfl, rfl, rfl, rfl, rfl⟩

/-- If no sample along the readings equals the target, the confirmation loop
    never succeeds. -/
theorem confirmLoop_false_of_nohit (target : DoorState) (rs : List Bool) :
    ∀ (s : ControllerState) (startT k : Nat),
      (∀ d ∈ sampleTrace s (startT + 500 * k) rs, d ≠ target) →
      (confirmLoop target s startT (startT + 500 * k) rs).1 = false := by
  induction rs with
  | nil =>
    intro s startT k h
    simp [confirmLoop]
  | cons r rs ih =>
    intro s startT k h
    simp only [confirmLoop]
    by_cases hlt : startT + 500 * k - startT < OPERATION_TIMEOUT
    · rw [if_pos hlt]
      have hhead : (getDoorState s r (startT + 500 * k + 500)).1 ≠ target := by
        apply h
        simp [sampleTrace]
      rw [if_neg hhead]
      have harith : startT + 500 * k + 500 = startT + 500 * (k + 1) := by ring
      rw [harith]
      apply ih
      intro d hd
      apply h
      simp only [sampleTrace, List.mem_cons]
      right
      rw [harith]
      exact hd
    · rw [if_neg hlt]

/-- If no sample equals the target and at least 40 readings are supplied,
    the loop exits exactly OPERATION_TIMEOUT after startT. -/
theorem confirmLoop_endTime_of_nohit (target : DoorState) (rs : List Bool) :
    ∀ (s : ControllerState) (startT k : Nat),
      (∀ d ∈ sampleTrace s (startT + 500 * k) rs, d ≠ target) →
      k ≤ 40 → 40 ≤ k + rs.length →
      (confirmLoop target s startT (startT + 500 * k) rs).2.2 = startT + OPERATION_TIMEOUT := by
  induction rs with
  | nil =>
    intro s startT k h hk hlen
    simp only [List.length_nil, Nat.add_zero] at hlen
    have hk40 : k = 40 := by omega
    subst hk40
    simp only [confirmLoop, OPERATION_TIMEOUT]
  | cons r rs ih =>
    intro s startT k h hk hlen
    simp only [confirmLoop]
    by_cases hk40 : k < 40
    · have hlt : startT + 500 * k - startT < OPERATION_TIMEOUT := by
        simp only [OPERATION_TIMEOUT]
        omega
      rw [if_pos hlt]
      have hhead : (getDoorState s r (startT + 500 * k + 500)).1 ≠ target := by
        apply h
        simp [sampleTrace]
      rw [if_neg hhead]
      have harith : startT + 500 * k + 500 = startT + 500 * (k + 1) := by ring
      rw [harith]
      apply ih
      · intro d hd
        apply h
        simp only [sampleTrace, List.mem_cons]
        right
        rw [harith]
        exact hd
      · omega
      · simp only [List.length_cons] at hlen
        omega
    · have hkeq : k = 40 := by omega
      subst hkeq
      have hnlt : ¬ (startT + 500 * 40 - startT < OPERATION_TIMEOUT) := by
        simp only [OPERATION_TIMEOUT]
        omega
      rw [if_neg hnlt]
      simp only [OPERATION_TIMEOUT]

/-- If some sample within the first 40 iterations equals the target, the
    confirmation loop succeeds. -/
theorem confirmLoop_true_of_hit (target : DoorState) (rs : List Bool) :
    ∀ (s : ControllerState) (startT k i : Nat),
      i + k < 40 →
      (sampleTrace s (startT + 500 * k) rs)[i]? = some target →
      (confirmLoop target s startT (startT + 500 * k) rs).1 = true := by
  induction rs with
  | nil =>
    intro s startT k i hik hget
    simp [sampleTrace] at hget
  | cons r rs ih =>
    intro s startT k i hik hget
    have hlt : startT + 500 * k - startT < OPERATION_TIMEOUT := by
      simp only [OPERATION_TIMEOUT]
      omega
    simp only [confirmLoop]
    rw [if_pos hlt]
    by_cases hh : (getDoorState s r (startT + 500 * k + 500)).1 = target
    · rw [if_pos hh]
    · rw [if_neg hh]
      cases i with
      | zero =>
        simp [sampleTrace] at hget
        exact absurd hget hh
      | succ j =>
        have hget2 : (sampleTrace (getDoorState s r (startT + 500 * k + 500)).2
            (startT + 500 * k + 500) rs)[j]? = some target := by
          simpa [sampleTrace] using hget
        have harith : startT + 500 * k + 500 = startT + 500 * (k + 1) := by ring
        rw [harith]
        rw [harith] at hget2
        exact ih _ startT (k + 1) j (by omega) hget2

/-- Once the per-episode flag is set, the alert check is silent and leaves
    the state untouched. -/
theorem alertCheck_none_of_sent (s : ControllerState) (now hour : Nat)
    (h : s.doorOpenAlertSent = true) : alertCheck s now hour = (none, s) := by
  simp [alertCheck, h]

/-- Below or at the threshold, the alert check is silent and leaves the
    state untouched. -/
theorem alertCheck_none_of_le (s : ControllerState) (now hour : Nat)
    (h1 : s.currentDoorState = DOOR_OPEN) (h2 : s.doorOpenAlertSent = false)
    (h3 : now - s.doorOpenStartTime ≤ s.doorOpenAlertThreshold) :
    alertCheck s now hour = (none, s) := by
  unfold alertCheck
  rw [if_pos ⟨h1, h2⟩, if_neg (by omega)]

/-- Strictly above the threshold with the flag clear, the alert check fires
    and sets the flag. -/
theorem alertCheck_fires (s : ControllerState) (now hour : Nat)
    (h1 : s.currentDoorState = DOOR_OPEN) (h2 : s.doorOpenAlertSent = false)
    (h3 : s.doorOpenAlertThreshold < now - s.doorOpenStartTime) :
    ∃ a, alertCheck s now hour = (some a, { s with doorOpenAlertSent := true }) := by
  refine ⟨{ minutes := (now - s.doorOpenStartTime) / 60000
          , quietHours := decide (QUIET_HOURS_START ≤ hour ∨ hour < QUIET_HOURS_END) }, ?_⟩
  unfold alertCheck
  rw [if_pos ⟨h1, h2⟩, if_pos h3]

/-- With the flag already set, every later tick is silent. -/
theorem alertTicks_of_sent (ticks : List (Nat × Nat)) :
    ∀ (s : ControllerState), s.doorOpenAlertSent = true →
      alertTicks s ticks = (List.replicate ticks.length none, s) := by
  induction ticks with
  | nil =>
    intro s h
    simp [alertTicks]
  | cons th rest ih =>
    intro s h
    simp [alertTicks, alertCheck_none_of_sent s th.1 th.2 h, ih s h, List.replicate_succ]

/-- Per-episode behaviour of the iterated alert check: starting from an open
    state with the flag clear, the output is silent strictly before the first
    tick whose open duration exceeds the threshold, fires exactly at that
    tick, stays silent afterwards, and the flag ends up set. -/
theorem alertTicks_episode (ticks : List (Nat × Nat)) :
    ∀ (s : ControllerState) (i : Nat) (tp : Nat × Nat),
      s.currentDoorState = DOOR_OPEN →
      s.doorOpenAlertSent = false →
      ticks[i]? = some tp →
      s.doorOpenAlertThreshold < tp.1 - s.doorOpenStartTime →
      (∀ p ∈ ticks.take i, p.1 - s.doorOpenStartTime ≤ s.doorOpenAlertThreshold) →
      ((∀ j, j < i → (alertTicks s ticks).1[j]? = some none)
       ∧ (∃ a, (alertTicks s ticks).1[i]? = some (some a))
       ∧ (∀ j, i < j → j < ticks.length → (alertTicks s ticks).1[j]? = some none)
       ∧ (alertTicks s ticks).2.doorOpenAlertSent = true) := by
  induction ticks with
  | nil =>
    intro s i tp hcur hsent hi hfire hbefore
    simp at hi
  | cons th rest ih =>
    intro s i tp hcur hsent hi hfire hbefore
    cases i with
    | zero =>
      have htp : th = tp := by simpa using hi
      subst htp
      obtain ⟨a, ha⟩ := alertCheck_fires s th.1 th.2 hcur hsent hfire
      have hrest := alertTicks_of_sent rest { s with doorOpenAlertSent := true } (by simp)
      refine ⟨?_, ?_, ?_, ?_⟩
      · intro j hj
        omega
      · exact ⟨a, by simp [alertTicks, ha]⟩
      · intro j h0j hj
        obtain ⟨m, rfl⟩ : ∃ m, j = m + 1 := ⟨j - 1, by omega⟩
        simp only [List.length_cons] at hj
        simp [alertTicks, ha, hrest, List.getElem?_replicate]
        omega
      · simp [alertTicks, ha, hrest]
    | succ k =>
      have hhead : th.1 - s.doorOpenStartTime ≤ s.doorOpenAlertThreshold := by
        apply hbefore
        simp [List.take_succ_cons]
      have hnone := alertCheck_none_of_le s th.1 th.2 hcur hsent hhead
      have hi2 : rest[k]? = some tp := by simpa using hi
      have hb2 : ∀ p ∈ rest.take k, p.1 - s.doorOpenStartTime ≤ s.doorOpenAlertThreshold := by
        intro p hp
        apply hbefore
        simp [List.take_succ_cons, hp]
      obtain ⟨ih1, ih2, ih3, ih4⟩ := ih s k tp hcur hsent hi2 hfire hb2
      refine ⟨?_, ?_, ?_, ?_⟩
      · intro j hj
        cases j with
        | zero => simp [alertTicks, hnone]
        | succ m =>
          have := ih1 m (by omega)
          simpa [alertTicks, hnone] using this
      · obtain ⟨a, ha⟩ := ih2
        exact ⟨a, by simpa [alertTicks, hnone] using ha⟩
      · intro j h1 h2
        obtain ⟨m, rfl⟩ : ∃ m, j = m + 1 := ⟨j - 1, by omega⟩
        simp only [List.length_cons] at h2
        have := ih3 m (by omega) (by omega)
        simpa [alertTicks, hnone] using this
      · simpa [alertTicks, hnone] using ih4

/-- During a flicker window the raw value b has been held since the timer
    reset at t0; samples within the debounce interval leave the stable state
    unchanged, and the reverting sample resets the timer and also leaves it
    unchanged. -/
theorem runSamples_flicker (b brev : Bool) (t0 trev : Nat) (ts : List Nat) :
    ∀ (s : ControllerState), s.lastSwitchState = b → s.lastDebounceTime = t0 →
      (∀ t ∈ ts, t - t0 ≤ debounceDelay) → brev ≠ b →
      (runSamples s (ts.map (fun t => (b, t)) ++ [(brev, trev)])).currentDoorState
        = s.currentDoorState := by
  induction ts with
  | nil =>
    intro s h1 h2 h3 h4
    simp only [List.map_nil, List.nil_append, runSamples]
    simp [sampleAssign, getDoorState, h1, h4]
  | cons t ts ih =>
    intro s h1 h2 h3 h4
    simp only [List.map_cons, List.cons_append, runSamples]
    have ht : t - t0 ≤ debounceDelay := h3 t (by simp)
    have hcond : ¬ (debounceDelay < t - t0) := by omega
    have hfields : (sampleAssign s b t).lastSwitchState = b
        ∧ (sampleAssign s b t).lastDebounceTime = t0
        ∧ (sampleAssign s b t).currentDoorState = s.currentDoorState := by
      simp [sampleAssign, getDoorState, h1, h2, hcond]
    have hrec := ih (sampleAssign s b t) hfields.1 hfields.2.1
      (fun u hu => h3 u (by simp [hu])) h4
    exact hrec.trans hfields.2.2

/-- C5: a raw reading that changes away from the held value and reverts to
    it in strictly less than debounceDelay leaves the stable state exactly as
    it was before the sequence; in particular any single sample whose raw
    value differs from the previous raw value returns the previously stable
    state unchanged (embedding of getDoorState, src/unnamed/part_000 lines
    106-125). -/
theorem c5_debounce_stability (s : ControllerState) (b : Bool) (t0 trev : Nat)
    (ts : List Nat)
    (hflip : b ≠ s.lastSwitchState)
    (hmid : ∀ t ∈ ts, t - t0 ≤ debounceDelay)
    (hrev : trev - t0 < debounceDelay) :
    ((runSamples s
        ((b, t0) :: (ts.map (fun t => (b, t)) ++ [(s.lastSwitchState, trev)]))).currentDoorState
      = s.currentDoorState)
    ∧ (∀ (r : Bool) (now : Nat), r ≠ s.lastSwitchState →
        (getDoorState s r now).1 = s.currentDoorState) := by
  constructor
  · have hcond : ¬ (debounceDelay < t0 - t0) := by omega
    have h0 : (sampleAssign s b t0).lastSwitchState = b
        ∧ (sampleAssign s b t0).lastDebounceTime = t0
        ∧ (sampleAssign s b t0).currentDoorState = s.currentDoorState := by
      simp [sampleAssign, getDoorState, hflip, hcond]
    simp only [runSamples]
    have hb : s.lastSwitchState ≠ b := Ne.symm hflip
    have hrec := runSamples_flicker b s.lastSwitchState t0 trev ts
      (sampleAssign s b t0) h0.1 h0.2.1 hmid hb
    rw [hrec, h0.2.2]
  · intro r now hr
    simp [getDoorState, hr]

/-- Witness for C5 at a concrete flicker sequence and a concrete single
    divergent sample. -/
theorem c5_debounce_stability_witness :
    (getDoorState exS5 LOW 77).1 = exS5.currentDoorState :=
  (c5_debounce_stability exS5 LOW 1000 1030 [1010]
    (by decide) (by decide) (by decide)).2 LOW 77 (by decide)

/-- C3: an open command issued while the freshly sampled debounced state is
    already DOOR_OPEN (and symmetrically a close command while it is already
    DOOR_CLOSED) returns AlreadyInTargetState, never invokes the actuator,
    leaves doorOperationInProgress at its previous value and records no
    DoorEvent (embedding of the /open and /close handlers). -/
theorem c3_already_in_target (s : ControllerState) (r0 : Bool)
    (now0 startTime wallNow : Nat) (rs : List Bool) :
    ((getDoorState s r0 now0).1 = DOOR_OPEN →
      (processOpen s r0 now0 startTime wallNow rs).1.result = CmdResult.AlreadyInTargetState ∧
      (processOpen s r0 now0 startTime wallNow rs).1.actuated = false ∧
      (processOpen s r0 now0 startTime wallNow rs).2.doorOperationInProgress
        = s.doorOperationInProgress ∧
      (processOpen s r0 now0 startTime wallNow rs).2.lastEvent = s.lastEvent)
    ∧ ((getDoorState s r0 now0).1 = DOOR_CLOSED →
      (processClose s r0 now0 startTime wallNow rs).1.result = CmdResult.AlreadyInTargetState ∧
      (processClose s r0 now0 startTime wallNow rs).1.actuated = false ∧
      (processClose s r0 now0 startTime wallNow rs).2.doorOperationInProgress
        = s.doorOperationInProgress ∧
      (processClose s r0 now0 startTime wallNow rs).2.lastEvent = s.lastEvent) := by
  have hg := getDoorState_frame s r0 now0
  constructor
  · intro h
    simp only [processOpen]
    rw [if_pos h]
    exact ⟨rfl, rfl, hg.2.1, hg.2.2.1⟩
  · intro h
    simp only [processClose]
    rw [if_pos h]
    exact ⟨rfl, rfl, hg.2.1, hg.2.2.1⟩

/-- Witness for C3: open command on a concretely open door. -/
theorem c3_already_in_target_witness :
    (processOpen exS3 LOW 100 1000 5000 []).1.result = CmdResult.AlreadyInTargetState ∧
    (processOpen exS3 LOW 100 1000 5000 []).1.actuated = false := by
  have h := (c3_already_in_target exS3 LOW 100 1000 5000 []).1 (by decide)
  exact ⟨h.1, h.2.1⟩

/-- Counterexample to C6 as stated: for /setalert 100000 the 32-bit store
    wraps, so the threshold does not become minutes converted to
    milliseconds: the program stores 1705032704 ms, not 6000000000 ms. -/
theorem c6_counterexample :
    (setAlertMinutes exS6 100000 3333).1 = CmdResult.Success ∧
    (setAlertMinutes exS6 100000 3333).2.doorOpenAlertThreshold = 1705032704 ∧
    (setAlertMinutes exS6 100000 3333).2.doorOpenAlertThreshold ≠ 100000 * 60 * 1000 := by
  decide

/-- C6 (amended): the setalert core fails with InvalidAlertThreshold and
    changes nothing on non-positive minutes; on positive minutes it sets the
    threshold to minutes * 60 * 1000 reduced modulo 2^32 by the 32-bit store
    (equal to minutes converted to milliseconds exactly when that product
    fits in 32 bits) and, exactly when the door is currently open, resets
    doorOpenStartTime to now and clears doorOpenAlertSent (embedding of
    src/unnamed/part_000 lines 272-285). -/
theorem c6_setalert_threshold (s : ControllerState) (minutes : Int) (now : Nat) :
    (minutes ≤ 0 → setAlertMinutes s minutes now = (CmdResult.InvalidAlertThreshold, s))
    ∧ (0 < minutes →
        (setAlertMinutes s minutes now).1 = CmdResult.Success ∧
        (setAlertMinutes s minutes now).2.doorOpenAlertThreshold
          = minutes.toNat * 60 * 1000 % 2 ^ 32 ∧
        (minutes.toNat * 60 * 1000 < 2 ^ 32 →
          (setAlertMinutes s minutes now).2.doorOpenAlertThreshold
            = minutes.toNat * 60 * 1000) ∧
        (s.currentDoorState = DOOR_OPEN →
          (setAlertMinutes s minutes now).2.doorOpenStartTime = now ∧
          (setAlertMinutes s minutes now).2.doorOpenAlertSent = false) ∧
        (s.currentDoorState ≠ DOOR_OPEN →
          (setAlertMinutes s minutes now).2.doorOpenStartTime = s.doorOpenStartTime ∧
          (setAlertMinutes s minutes now).2.doorOpenAlertSent = s.doorOpenAlertSent)) := by
  constructor
  · intro h
    have hng : ¬ (minutes > 0) := by omega
    simp [setAlertMinutes, hng]
  · intro h
    by_cases hop : s.currentDoorState = DOOR_OPEN
    · simp [setAlertMinutes, h, hop, Nat.mod_eq_of_lt]
    · simp [setAlertMinutes, h, hop, Nat.mod_eq_of_lt]

/-- Witness for the amended C6: a positive (non-wrapping) and a
    non-positive concrete setalert call. -/
theorem c6_setalert_threshold_witness :
    (setAlertMinutes exS6 5 3333).1 = CmdResult.Success ∧
    (setAlertMinutes exS6 5 3333).2.doorOpenAlertThreshold = 300000 ∧
    (setAlertMinutes exS6 5 3333).2.doorOpenStartTime = 3333 ∧
    (setAlertMinutes exS6 (-2) 3333).2 = exS6 := by
  have hpos := (c6_setalert_threshold exS6 5 3333).2 (by decide)
  have hneg := (c6_setalert_threshold exS6 (-2) 3333).1 (by decide)
  exact ⟨hpos.1, (hpos.2.2.1 (by decide)).trans (by decide),
    (hpos.2.2.2.1 (by decide)).1, congrArg Prod.snd hneg⟩

/-- C8: with a raw reading held stable for longer than the debounce
    interval, the two revisions of getDoorState map the same raw level to
    opposite door states (garagedoor.ino maps HIGH to DOOR_OPEN, the later
    revision maps HIGH to DOOR_CLOSED), so the two embedded functions are
    not extensionally equal. -/
theorem c8_polarity_mismatch :
    (∀ (s : ControllerState) (r : Bool) (now : Nat),
        r = s.lastSwitchState → debounceDelay < now - s.lastDebounceTime →
          (Rev1.getDoorState s r now).1 ≠ (getDoorState s r now).1 ∧
          ((Rev1.getDoorState s r now).1 = DOOR_OPEN ↔ (getDoorState s r now).1 = DOOR_CLOSED) ∧
          (r = HIGH → (Rev1.getDoorState s r now).1 = DOOR_OPEN ∧
            (getDoorState s r now).1 = DOOR_CLOSED) ∧
          (r = LOW → (Rev1.getDoorState s r now).1 = DOOR_CLOSED ∧
            (getDoorState s r now).1 = DOOR_OPEN))
    ∧ Rev1.getDoorState ≠ getDoorState := by
  constructor
  · intro s r now h1 h2
    have hne : ¬ (r ≠ s.lastSwitchState) := by simp [h1]
    have e1 : (Rev1.getDoorState s r now).1
        = if r = HIGH then DOOR_OPEN else DOOR_CLOSED := by
      simp [Rev1.getDoorState, hne, h2]
    have e2 : (getDoorState s r now).1
        = if r = HIGH then DOOR_CLOSED else DOOR_OPEN := by
      simp only [getDoorState, if_neg hne]
      rw [if_pos h2]
      cases r <;> simp [HIGH]
    rw [e1, e2]
    cases r <;> simp [HIGH, LOW]
  · intro hfun
    have h := congrFun (congrFun (congrFun hfun exS8) HIGH) 100
    exact absurd h (by decide)

/-- Witness for C8 at a concrete held reading. -/
theorem c8_polarity_mismatch_witness :
    (Rev1.getDoorState exS8 HIGH 100).1 ≠ (getDoorState exS8 HIGH 100).1 :=
  (c8_polarity_mismatch.1 exS8 HIGH 100 (by decide) (by decide)).1

/-- Counterexample to C9 as stated: /status does rewrite currentDoorState.
    From a boot-time state whose stored currentDoorState is DOOR_UNKNOWN
    while the raw reading has settled HIGH, a single /status query changes
    currentDoorState. -/
theorem c9_counterexample :
    (processStatus exS9 HIGH 100).2.currentDoorState ≠ exS9.currentDoorState ∧
    (processStatus exS9 HIGH 100).2.currentDoorState = DOOR_CLOSED ∧
    exS9.currentDoorState = DOOR_UNKNOWN := by
  decide

/-- C9 (amended): /log leaves the controller state entirely unchanged, and
    /status leaves every field except the debounce filter and
    currentDoorState unchanged, writing into currentDoorState exactly the
    one fresh debounced sample; both replies are projections of
    currentDoorState, the retained event and uptime. -/
theorem c9_queries_readonly :
    (∀ (s : ControllerState) (millisNow : Nat), (processLog s millisNow).2 = s)
    ∧ (∀ (s : ControllerState) (r : Bool) (now : Nat),
        (processStatus s r now).2.lastEvent = s.lastEvent ∧
        (processStatus s r now).2.doorOperationInProgress = s.doorOperationInProgress ∧
        (processStatus s r now).2.doorOpenStartTime = s.doorOpenStartTime ∧
        (processStatus s r now).2.doorOpenAlertSent = s.doorOpenAlertSent ∧
        (processStatus s r now).2.doorOpenAlertThreshold = s.doorOpenAlertThreshold ∧
        (processStatus s r now).2.currentDoorState = (getDoorState s r now).1 ∧
        (processStatus s r now).1
          = { state := (getDoorState s r now).1, lastEvent := s.lastEvent }) := by
  constructor
  · intro s millisNow
    rfl
  · intro s r now
    have hg := getDoorState_frame s r now
    exact ⟨hg.2.2.1, hg.2.1, hg.2.2.2.1, hg.2.2.2.2.1, hg.2.2.2.2.2, rfl,
      by simp only [processStatus]; rw [hg.2.2.1]⟩

/-- Counterexample to C7 as stated: a transition into DOOR_CLOSED does not
    clear doorOpenStartTime; the stale open-start time 777 survives the
    close transition. -/
theorem c7_counterexample :
    (loopDoorStateCheck exS7 HIGH 5000 9999).currentDoorState = DOOR_CLOSED ∧
    exS7.currentDoorState = DOOR_OPEN ∧
    (loopDoorStateCheck exS7 HIGH 5000 9999).doorOpenStartTime = exS7.doorOpenStartTime ∧
    exS7.doorOpenStartTime = 777 := by
  decide

/-- C7 (amended): on an observed transition into DOOR_OPEN the loop sets
    doorOpenStartTime to now and clears doorOpenAlertSent; on an observed
    transition into DOOR_CLOSED it only clears doorOpenAlertSent and leaves
    doorOpenStartTime at its previous (possibly stale) value. -/
theorem c7_transition_alert_reset (s : ControllerState) (r : Bool)
    (now wallNow : Nat)
    (hne : (getDoorState s r now).1 ≠ s.currentDoorState) :
    ((getDoorState s r now).1 = DOOR_OPEN →
      (loopDoorStateCheck s r now wallNow).currentDoorState = DOOR_OPEN ∧
      (loopDoorStateCheck s r now wallNow).doorOpenStartTime = now ∧
      (loopDoorStateCheck s r now wallNow).doorOpenAlertSent = false)
    ∧ ((getDoorState s r now).1 = DOOR_CLOSED →
      (loopDoorStateCheck s r now wallNow).currentDoorState = DOOR_CLOSED ∧
      (loopDoorStateCheck s r now wallNow).doorOpenAlertSent = false ∧
      (loopDoorStateCheck s r now wallNow).doorOpenStartTime = s.doorOpenStartTime) := by
  have hg := getDoorState_frame s r now
  have hne2 : (getDoorState s r now).1 ≠ (getDoorState s r now).2.currentDoorState := by
    rw [hg.1]
    exact hne
  constructor
  · intro hopen
    have hne3 : DOOR_OPEN ≠ (getDoorState s r now).2.currentDoorState := hopen ▸ hne2
    by_cases hip : (getDoorState s r now).2.doorOperationInProgress
    · simp [loopDoorStateCheck, hne2, hne3, hopen, hip]
    · simp [loopDoorStateCheck, hne2, hne3, hopen, hip, recordDoorEvent]
  · intro hclosed
    have hne3 : DOOR_CLOSED ≠ (getDoorState s r now).2.currentDoorState := hclosed ▸ hne2
    by_cases hip : (getDoorState s r now).2.doorOperationInProgress
    · simp [loopDoorStateCheck, hne2, hne3, hclosed, hip, hg.2.2.2.1]
    · simp [loopDoorStateCheck, hne2, hne3, hclosed, hip, recordDoorEvent, hg.2.2.2.1]

/-- Witness for the amended C7 at a concrete open transition. -/
theorem c7_transition_alert_reset_witness :
    (loopDoorStateCheck exS7b LOW 100 55).currentDoorState = DOOR_OPEN ∧
    (loopDoorStateCheck exS7b LOW 100 55).doorOpenStartTime = 100 ∧
    (loopDoorStateCheck exS7b LOW 100 55).doorOpenAlertSent = false :=
  (c7_transition_alert_reset exS7b LOW 100 55 (by decide)).1 (by decide)

/-- C4: starting from a state that just transitioned to open (flag clear,
    openSince recorded), the iterated alert check is silent strictly before
    the first tick whose open duration exceeds the threshold, emits the
    extended-open alert exactly at that tick while setting
    doorOpenAlertSent, and stays silent for every later tick of the episode
    (embedding of the loop alert check, src/unnamed/part_000 lines 467-494). -/
theorem c4_single_alert_per_episode (s : ControllerState)
    (ticks : List (Nat × Nat)) (i : Nat) (tp : Nat × Nat)
    (hcur : s.currentDoorState = DOOR_OPEN)
    (hsent : s.doorOpenAlertSent = false)
    (hi : ticks[i]? = some tp)
    (hfire : s.doorOpenAlertThreshold < tp.1 - s.doorOpenStartTime)
    (hbefore : ∀ p ∈ ticks.take i, p.1 - s.doorOpenStartTime ≤ s.doorOpenAlertThreshold) :
    (∀ j, j < i → (alertTicks s ticks).1[j]? = some none)
    ∧ (∃ a, (alertTicks s ticks).1[i]? = some (some a))
    ∧ (∀ j, i < j → j < ticks.length → (alertTicks s ticks).1[j]? = some none)
    ∧ (alertTicks s ticks).2.doorOpenAlertSent = true :=
  alertTicks_episode ticks s i tp hcur hsent hi hfire hbefore

/-- Witness for C4 at a concrete three-tick episode firing at the second
    tick. -/
theorem c4_single_alert_per_episode_witness :
    ((alertTicks exS4 [(500, 12), (2000, 23), (3000, 3)]).1[0]? = some none)
    ∧ ((alertTicks exS4 [(500, 12), (2000, 23), (3000, 3)]).2.doorOpenAlertSent = true) := by
  have h := c4_single_alert_per_episode exS4 [(500, 12), (2000, 23), (3000, 3)] 1 (2000, 23)
    (by decide) (by decide) (by decide) (by decide) (by decide)
  exact ⟨h.1 0 (by decide), h.2.2.2⟩

/-- C10: a message whose chat_id differs from the authorized chat leaves the
    controller state unchanged and never invokes the actuator, whatever its
    text and environment; consequently a batch of messages produces the same
    controller state as the batch restricted to authorized messages
    (embedding of the auth check of handleNewMessages). -/
theorem c10_unauthorized_noop :
    (∀ (auth : String) (s : ControllerState) (m : TgMessage),
        m.chat_id ≠ auth → handleMessage auth s m = (s, false))
    ∧ (∀ (auth : String) (s : ControllerState) (ms : List TgMessage),
        handleNewMessages auth s ms
          = handleNewMessages auth s (ms.filter (fun m => m.chat_id == auth))) := by
  have hmsg : ∀ (auth : String) (s : ControllerState) (m : TgMessage),
      m.chat_id ≠ auth → handleMessage auth s m = (s, false) := by
    intro auth s m h
    simp [handleMessage, h]
  refine ⟨hmsg, ?_⟩
  intro auth s ms
  induction ms generalizing s with
  | nil => rfl
  | cons m ms ih =>
    by_cases h : m.chat_id = auth
    · have hfilter : (m :: ms).filter (fun x => x.chat_id == auth)
          = m :: ms.filter (fun x => x.chat_id == auth) := by
        simp [List.filter_cons, h]
      rw [hfilter]
      simp only [handleNewMessages]
      exact ih ((handleMessage auth s m).1)
    · have hfilter : (m :: ms).filter (fun x => x.chat_id == auth)
          = ms.filter (fun x => x.chat_id == auth) := by
        simp [List.filter_cons, h]
      rw [hfilter]
      simp only [handleNewMessages]
      rw [hmsg auth s m h]
      exact ih s

/-- Witness for C10: a concrete unauthorized open command is a no-op. -/
theorem c10_unauthorized_noop_witness :
    handleMessage strTelegram exS2 exM10 = (exS2, false) :=
  c10_unauthorized_noop.1 strTelegram exS2 exM10 (by decide)

/-- C1: when the fresh debounced sample differs from the target and some
    confirmation-poll sample within the operation-timeout window returns the
    target, the open (resp. close) command returns Success, sets
    currentDoorState to the target, and overwrites the retained DoorEvent
    with the target state, the current wall-clock time and the telegram
    source (the spec's Command source). -/
theorem c1_success_path (s : ControllerState) (r0 : Bool)
    (now0 startTime wallNow : Nat) (rs : List Bool) :
    ((getDoorState s r0 now0).1 ≠ DOOR_OPEN →
      (∃ i, i < 40 ∧
        (sampleTrace { (getDoorState s r0 now0).2 with
            currentDoorState := (getDoorState s r0 now0).1
          , doorOperationInProgress := true } startTime rs)[i]? = some DOOR_OPEN) →
      (processOpen s r0 now0 startTime wallNow rs).1.result = CmdResult.Success ∧
      (processOpen s r0 now0 startTime wallNow rs).2.currentDoorState = DOOR_OPEN ∧
      (processOpen s r0 now0 startTime wallNow rs).2.lastEvent
        = { state := DOOR_OPEN, timestamp := wallNow, source := strTelegram })
    ∧ ((getDoorState s r0 now0).1 ≠ DOOR_CLOSED →
      (∃ i, i < 40 ∧
        (sampleTrace { (getDoorState s r0 now0).2 with
            currentDoorState := (getDoorState s r0 now0).1
          , doorOperationInProgress := true } startTime rs)[i]? = some DOOR_CLOSED) →
      (processClose s r0 now0 startTime wallNow rs).1.result = CmdResult.Success ∧
      (processClose s r0 now0 startTime wallNow rs).2.currentDoorState = DOOR_CLOSED ∧
      (processClose s r0 now0 startTime wallNow rs).2.lastEvent
        = { state := DOOR_CLOSED, timestamp := wallNow, source := strTelegram }) := by
  constructor
  · intro hne hhit
    obtain ⟨i, hi, hget⟩ := hhit
    have hk := confirmLoop_true_of_hit DOOR_OPEN rs
      { (getDoorState s r0 now0).2 with
          currentDoorState := (getDoorState s r0 now0).1
        , doorOperationInProgress := true } startTime 0 i (by omega) (by simpa using hget)
    have hk2 : (confirmLoop DOOR_OPEN
        { (getDoorState s r0 now0).2 with
            currentDoorState := (getDoorState s r0 now0).1
          , doorOperationInProgress := true } startTime startTime rs).1 = true := by
      simpa using hk
    simp only [processOpen]
    rw [if_neg hne, if_pos hk2]
    refine ⟨rfl, ?_, ?_⟩ <;> simp [recordDoorEvent]
  · intro hne hhit
    obtain ⟨i, hi, hget⟩ := hhit
    have hk := confirmLoop_true_of_hit DOOR_CLOSED rs
      { (getDoorState s r0 now0).2 with
          currentDoorState := (getDoorState s r0 now0).1
        , doorOperationInProgress := true } startTime 0 i (by omega) (by simpa using hget)
    have hk2 : (confirmLoop DOOR_CLOSED
        { (getDoorState s r0 now0).2 with
            currentDoorState := (getDoorState s r0 now0).1
          , doorOperationInProgress := true } startTime startTime rs).1 = true := by
      simpa using hk
    simp only [processClose]
    rw [if_neg hne, if_pos hk2]
    refine ⟨rfl, ?_, ?_⟩ <;> simp [recordDoorEvent]

/-- Witness for C1: a concrete open command whose second poll sample reaches
    DOOR_OPEN. -/
theorem c1_success_path_witness :
    (processOpen exS2 HIGH 100 1000 5000 [LOW, LOW]).1.result = CmdResult.Success ∧
    (processOpen exS2 HIGH 100 1000 5000 [LOW, LOW]).2.currentDoorState = DOOR_OPEN := by
  have h := (c1_success_path exS2 HIGH 100 1000 5000 [LOW, LOW]).1 (by decide)
    ⟨1, by decide, by decide⟩
  exact ⟨h.1, h.2.1⟩

/-- Counterexample to C2 as stated: on the timeout path currentDoorState is
    not left at its pre-command value.  From a state whose stored
    currentDoorState is DOOR_OPEN while the raw reading has settled HIGH
    (debounced DOOR_CLOSED), a timed-out /open leaves currentDoorState at
    the freshly sampled DOOR_CLOSED, not at the pre-command DOOR_OPEN. -/
theorem c2_counterexample :
    (processOpen exS2 HIGH 100 1000 5000 (List.replicate 40 HIGH)).1.result
      = CmdResult.OperationTimeout ∧
    (processOpen exS2 HIGH 100 1000 5000 (List.replicate 40 HIGH)).2.currentDoorState
      ≠ exS2.currentDoorState := by
  decide

/-- C2 (amended): when the fresh debounced sample differs from the target
    and no confirmation-poll sample returns the target, the open (resp.
    close) command returns OperationTimeout exactly OPERATION_TIMEOUT after
    the confirmation window starts, currentDoorState equals the fresh
    debounced sample taken at the start of the command (which may differ
    from its value before the command), and the retained DoorEvent is not
    modified. -/
theorem c2_timeout_path (s : ControllerState) (r0 : Bool)
    (now0 startTime wallNow : Nat) (rs : List Bool) :
    ((getDoorState s r0 now0).1 ≠ DOOR_OPEN →
      (∀ d ∈ sampleTrace { (getDoorState s r0 now0).2 with
            currentDoorState := (getDoorState s r0 now0).1
          , doorOperationInProgress := true } startTime rs, d ≠ DOOR_OPEN) →
      40 ≤ rs.length →
      (processOpen s r0 now0 startTime wallNow rs).1.result = CmdResult.OperationTimeout ∧
      (processOpen s r0 now0 startTime wallNow rs).1.endTime = startTime + OPERATION_TIMEOUT ∧
      (processOpen s r0 now0 startTime wallNow rs).2.currentDoorState
        = (getDoorState s r0 now0).1 ∧
      (processOpen s r0 now0 startTime wallNow rs).2.lastEvent = s.lastEvent)
    ∧ ((getDoorState s r0 now0).1 ≠ DOOR_CLOSED →
      (∀ d ∈ sampleTrace { (getDoorState s r0 now0).2 with
            currentDoorState := (getDoorState s r0 now0).1
          , doorOperationInProgress := true } startTime rs, d ≠ DOOR_CLOSED) →
      40 ≤ rs.length →
      (processClose s r0 now0 startTime wallNow rs).1.result = CmdResult.OperationTimeout ∧
      (processClose s r0 now0 startTime wallNow rs).1.endTime = startTime + OPERATION_TIMEOUT ∧
      (processClose s r0 now0 startTime wallNow rs).2.currentDoorState
        = (getDoorState s r0 now0).1 ∧
      (processClose s r0 now0 startTime wallNow rs).2.lastEvent = s.lastEvent) := by
  constructor
  · intro hne hnohit hlen
    have hf := confirmLoop_false_of_nohit DOOR_OPEN rs
      { (getDoorState s r0 now0).2 with
          currentDoorState := (getDoorState s r0 now0).1
        , doorOperationInProgress := true } startTime 0 (by simpa using hnohit)
    have hf2 : ¬ ((confirmLoop DOOR_OPEN
        { (getDoorState s r0 now0).2 with
            currentDoorState := (getDoorState s r0 now0).1
          , doorOperationInProgress := true } startTime startTime rs).1 = true) := by
      simp only [Nat.mul_zero, Nat.add_zero] at hf
      simp [hf]
    have hend := confirmLoop_endTime_of_nohit DOOR_OPEN rs
      { (getDoorState s r0 now0).2 with
          currentDoorState := (getDoorState s r0 now0).1
        , doorOperationInProgress := true } startTime 0 (by simpa using hnohit)
      (by omega) (by omega)
    have hend2 : (confirmLoop DOOR_OPEN
        { (getDoorState s r0 now0).2 with
            currentDoorState := (getDoorState s r0 now0).1
          , doorOperationInProgress := true } startTime startTime rs).2.2
        = startTime + OPERATION_TIMEOUT := by
      simpa using hend
    have hfr := confirmLoop_frame DOOR_OPEN rs
      { (getDoorState s r0 now0).2 with
          currentDoorState := (getDoorState s r0 now0).1
        , doorOperationInProgress := true } startTime startTime
    have hgf := getDoorState_frame s r0 now0
    simp only [processOpen]
    rw [if_neg hne, if_neg hf2]
    exact ⟨rfl, hend2, hfr.1, hfr.2.2.1.trans hgf.2.2.1⟩
  · intro hne hnohit hlen
    have hf := confirmLoop_false_of_nohit DOOR_CLOSED rs
      { (getDoorState s r0 now0).2 with
          currentDoorState := (getDoorState s r0 now0).1
        , doorOperationInProgress := true } startTime 0 (by simpa using hnohit)
    have hf2 : ¬ ((confirmLoop DOOR_CLOSED
        { (getDoorState s r0 now0).2 with
            currentDoorState := (getDoorState s r0 now0).1
          , doorOperationInProgress := true } startTime startTime rs).1 = true) := by
      simp only [Nat.mul_zero, Nat.add_zero] at hf
      simp [hf]
    have hend := confirmLoop_endTime_of_nohit DOOR_CLOSED rs
      { (getDoorState s r0 now0).2 with
          currentDoorState := (getDoorState s r0 now0).1
        , doorOperationInProgress := true } startTime 0 (by simpa using hnohit)
      (by omega) (by omega)
    have hend2 : (confirmLoop DOOR_CLOSED
        { (getDoorState s r0 now0).2 with
            currentDoorState := (getDoorState s r0 now0).1
          , doorOperationInProgress := true } startTime startTime rs).2.2
        = startTime + OPERATION_TIMEOUT := by
      simpa using hend
    have hfr := confirmLoop_frame DOOR_CLOSED rs
      { (getDoorState s r0 now0).2 with
          currentDoorState := (getDoorState s r0 now0).1
        , doorOperationInProgress := true } startTime startTime
    have hgf := getDoorState_frame s r0 now0
    simp only [processClose]
    rw [if_neg hne, if_neg hf2]
    exact ⟨rfl, hend2, hfr.1, hfr.2.2.1.trans hgf.2.2.1⟩

/-- Witness for the amended C2: a concrete open command whose forty poll
    samples all stay DOOR_CLOSED times out exactly at the window end. -/
theorem c2_timeout_path_witness :
    (processOpen exS2 HIGH 100 1000 5000 (List.replicate 40 HIGH)).1.result
      = CmdResult.OperationTimeout ∧
    (processOpen exS2 HIGH 100 1000 5000 (List.replicate 40 HIGH)).1.endTime
      = 1000 + OPERATION_TIMEOUT := by
  have h := (c2_timeout_path exS2 HIGH 100 1000 5000 (List.replicate 40 HIGH)).1
    (by decide) (by decide) (by decide)
  exact ⟨h.1, h.2.1⟩

end GarageDoor
